import Mathlib

/-!
# Verification of the gxxtools queue/resource resolver

Shallow embedding of the resource-resolution logic of `gxxtools`
(`gxxtools/sub/arch.py`, `gxxtools/sub/__init__.py`), together with
theorems checking the natural-language specification of the resolver.

Conventions of the embedding:
* Python machine integers are unbounded, so `Nat`/`Int` model them directly.
* Python floats produced by the `* 0.9` memory scaling and the
  `core_factor` division are modelled by exact rationals (`ℚ`); the
  claims under scrutiny only involve values where float and rational
  arithmetic agree on the facts stated (smallness of numerators, and
  integrality/non-integrality, which holds in binary floating point for
  the same sample points).
* Python `dict`s iterate in insertion order; they are modelled by
  association lists (`List (String × α)`).
* Failure paths (`raise`, `sys.exit`, and uncaught exceptions such as
  `UnboundLocalError`, `TypeError` and `IndexError`) are modelled by
  `Except` with one distinct error constructor per distinct failure.
-/

deriving instance DecidableEq for Except

namespace GxxTools

/-! ## Python-semantics helpers -/

/-- Python truthy `or` on an optional count with an integer default:
`x or d` yields `d` when `x` is `None` or `0`. -/
def pyOrNat (o : Option Nat) (d : Nat) : Nat :=
  match o with
  | some v => if v = 0 then d else v
  | none => d

/-- Python truthy `or` between an optional quantity and an optional
default: `x or d` yields `d` when `x` is `None` or `0`. -/
def pyOrRat (o : Option ℚ) (d : Option ℚ) : Option ℚ :=
  match o with
  | some v => if v = 0 then d else some v
  | none => d

/-- Python `int()` applied to a (here: rational) number truncates toward
zero. -/
def pyTrunc (q : ℚ) : Int :=
  if q < 0 then -⌊-q⌋ else ⌊q⌋

/-- Python `int()` applied to a string: optional sign followed by a
nonempty digit string (the inputs of interest are already stripped).
`none` models the `ValueError` raised on any other shape. -/
def pyParseInt (s : String) : Option Int :=
  let core : List Char → Option Nat := fun t =>
    if t ≠ [] ∧ t.all Char.isDigit then
      some (t.foldl (fun a c => a * 10 + (c.toNat - 48)) 0)
    else none
  match s.toList with
  | '+' :: rest => (core rest).map Int.ofNat
  | '-' :: rest => (core rest).map (fun n => -(n : Int))
  | l => (core l).map Int.ofNat

/-- Occurrence of `pat` as a contiguous sublist (Python `pat in s` on the
character lists). -/
def subOccurs (pat : List Char) : List Char → Bool
  | [] => pat.isEmpty
  | x :: xs => pat.isPrefixOf (x :: xs) || subOccurs pat xs

/-- Python `pat in s` substring test (for the walltime lookup). -/
def pyInStr (pat s : String) : Bool :=
  subOccurs pat.toList s.toList

/-- Split a character list at every occurrence of `c` (Python
`s.split(c)` for a one-character separator, on the character lists). -/
def splitOnChar (c : Char) : List Char → List (List Char)
  | [] => [[]]
  | x :: xs =>
    let rest := splitOnChar c xs
    if x = c then [] :: rest
    else
      match rest with
      | [] => [[x]]
      | h :: t => (x :: h) :: t

/-- Python `s.split(c)` for a one-character separator. -/
def pySplit (c : Char) (s : String) : List String :=
  (splitOnChar c s.toList).map String.mk

/-- Python `s.strip()`. -/
def pyStrip (s : String) : String :=
  String.mk (((s.toList.dropWhile Char.isWhitespace).reverse.dropWhile
    Char.isWhitespace).reverse)

/-- Python `s.lower()` (ASCII inputs in this development). -/
def pyLower (s : String) : String :=
  String.mk (s.toList.map Char.toLower)

/-- Python `s.startswith(pre)`. -/
def pyStartsWith (s pre : String) : Bool :=
  pre.toList.isPrefixOf s.toList

/-- One fuel-indexed step list for `removeAll`; the fuel is an upper
bound on the number of characters still to inspect. -/
def removeAllAux (pat : List Char) : Nat → List Char → List Char
  | 0, l => l
  | _ + 1, [] => []
  | fuel + 1, x :: xs =>
    if pat ≠ [] ∧ pat.isPrefixOf (x :: xs) then
      removeAllAux pat fuel ((x :: xs).drop pat.length)
    else x :: removeAllAux pat fuel xs

/-- Python `s.replace` with an empty replacement: delete every (leftmost-first,
non-overlapping) occurrence of `pat`. -/
def pyRemoveAll (s pat : String) : String :=
  String.mk (removeAllAux pat.toList s.toList.length s.toList)

/-- Left-pad a string with zeros up to width `w`. -/
def padZeros (s : String) (w : Nat) : String :=
  String.mk (List.replicate (w - s.length) '0') ++ s

/-- Python zero-padded decimal formatting (format spec `0Nd`): zero-pad a signed integer to width `w`;
the sign occupies one column of the width. -/
def pyFormatZeroPad (v : Int) (w : Nat) : String :=
  if v < 0 then "-" ++ padZeros (toString (-v).toNat) (w - 1)
  else padZeros (toString v.toNat) w

/-- Python `s.strip() or None` idiom used on queue-spec tokens. -/
def stripOrNone (s : String) : Option String :=
  let t := pyStrip s
  if t = "" then none else some t

/-! ## Node catalog data model

`NodeFamily` models the surface of the `hpcnodes` node-family objects
that `arch.py` consumes: a per-node CPU topology (`ncpu` processors of
`ncores` physical cores, each core carrying `nthreads` hardware
threads), soft/hard administrative limits, total memory, the number of
nodes (`len(family)`), the scheduler queue name, optional group
restrictions and the scratch-path template. -/

structure NodeFamily where
  queue_name : String
  /-- Number of processors (sockets) per node. -/
  ncpu : Nat
  /-- Physical cores per processor (`family.ncores`). -/
  ncores : Nat
  /-- Hardware threads per physical core. -/
  nthreads : Nat := 1
  cpu_soft : Option Nat := none
  cpu_hard : Option Nat := none
  mem_soft : Option ℚ := none
  mem_hard : Option ℚ := none
  /-- Total usable memory per node (`family.size_mem`). -/
  size_mem : Option ℚ := none
  /-- Number of nodes in the family (`len(family)`). -/
  nnodes : Nat := 1
  user_groups : Option (List String) := none
  path_tmpdir : Option String := none
deriving Repr, DecidableEq

/-- `family.nprocs(count_all)`: processing units of one node, counting
every hardware thread when `count_all`, else physical cores only. -/
def NodeFamily.nprocs (f : NodeFamily) (count_all : Bool) : Nat :=
  if count_all then f.ncpu * f.ncores * f.nthreads else f.ncpu * f.ncores

/-- `_USE_LOGICAL_CORE` module constant of `arch.py`. -/
def USE_LOGICAL_CORE : Bool := false

/-- `_MEM_LIMIT` module constant of `arch.py`. -/
def MEM_LIMIT : ℚ := 9 / 10

/-! ## Resolver output and error kinds -/

structure CpuAlloc where
  soft : Option Nat
  hard : Nat
  base : Int
deriving Repr, DecidableEq

structure MemAlloc where
  soft : Option ℚ
  hard : Option ℚ
  base : ℚ
deriving Repr, DecidableEq

/-- `job_extra` dictionary.  `group = some v` models the key `group`
being present with (Python) value `v`, where `v = none` models `None`. -/
structure Extras where
  qname : String
  qbase : String
  host : Option String := none
  group : Option (Option String) := none
deriving Repr, DecidableEq

/-- Distinct failure paths of `_get_spec_by_queue`.  The `crash…`
constructors model uncaught Python exceptions (not `raise`d errors). -/
inductive ResolveError
  /-- `ValueError`: too many sections in full queue specification -/
  | tooManySections
  /-- `KeyError`: unsupported queue -/
  | unsupportedQueue
  /-- `ValueError`: no limit on number of processors -/
  | noCpuLimit
  /-- `ValueError`: unsupported definition of processors -/
  | invalidCpuSpec
  /-- `UnboundLocalError`: `res` is never assigned when the token parses
  as the integer zero (e.g. `"00"`), crashing at `nprocs = int(res)`. -/
  | crashUnboundRes
  /-- `ValueError`: too many processing units requested -/
  | tooManyCores
  /-- `ValueError`: number of processing units exceeds hard limit -/
  | hardLimitExceeded
  /-- `ValueError`: no memory limit -/
  | noMemoryLimit
  /-- `KeyError`: wrong definition of the node ID -/
  | invalidNodeId
  /-- `sys.exit(2)` on node selected both via spec and `--node`. -/
  | conflictingNodeSelection
  /-- `sys.exit(10)`: chosen group not authorized. -/
  | groupNotAuthorized
  /-- `IndexError`: `user_groups[0]` on an empty authorized-group list. -/
  | crashEmptyGroups
deriving Repr, DecidableEq

structure SpecResult where
  cpu : CpuAlloc
  mem : MemAlloc
  extras : Extras
deriving Repr, DecidableEq

/-! ## Queue-spec parsing and catalog lookup -/

/-- Split of `opts.queue` on the colon (lines 257–271 of `arch.py`):
queue name, optional nprocs token, optional node-id token. -/
def parseQueueSpec (q : String) :
    Except ResolveError (String × Option String × Option String) :=
  match pySplit ':' q with
  | [queue] => .ok (queue, none, none)
  | [queue, np] => .ok (queue, stripOrNone np, none)
  | [queue, np, nid] => .ok (queue, stripOrNone np, stripOrNone nid)
  | _ => .error .tooManySections

/-- `gtpar.nodes_info[gtpar.queues_info[queue]]`: both catalog lookups;
a miss in either raises `KeyError`: unsupported queue. -/
def lookupFamily (queues_info : List (String × String))
    (nodes_info : List (String × NodeFamily)) (queue : String) :
    Option NodeFamily :=
  (queues_info.lookup queue).bind (fun key => nodes_info.lookup key)

/-! ## CPU-spec resolution (lines 282–319 of `arch.py`) -/

/-- The token dispatch computing `res` (lines 289–312).  `core_factor`
is the virtual-core multiplier; with `_USE_LOGICAL_CORE = False` it is
the ratio of the physical count to itself. -/
def cpuSpecValue (f : NodeFamily) (nprocsTok : Option String) :
    Except ResolveError ℚ :=
  let nprocs_avail := f.nprocs USE_LOGICAL_CORE
  let core_factor : ℚ := (f.nprocs USE_LOGICAL_CORE : ℚ) / (f.nprocs false : ℚ)
  match nprocsTok with
  | none =>
    match f.cpu_soft with
    | some s => .ok (s : ℚ)
    -- The hard entry of maxcpu is never None after the or-defaulting to
    -- nprocs_avail, so the no-limit branch is unreachable here.
    | none => .ok ((pyOrNat f.cpu_hard nprocs_avail : Nat) : ℚ)
  | some tok =>
    if tok = "H" then .ok ((pyTrunc ((f.ncores : ℚ) * core_factor / 2) : ℚ))
    else if tok = "S" then .ok (1 * core_factor)
    else if tok = "0" then .ok (nprocs_avail : ℚ)
    else
      match pyParseInt tok with
      | some v =>
        if v < 0 then .ok ((v.natAbs : ℚ) * (f.ncores : ℚ) * core_factor)
        else if v > 0 then .ok (v : ℚ)
        else .error .crashUnboundRes
      | none => .error .invalidCpuSpec

/-- `nprocs = int(res)` and the capacity/hard-limit checks
(lines 313–319), building the cpu allocation record. -/
def resolveCpu (f : NodeFamily) (nprocsTok : Option String) :
    Except ResolveError CpuAlloc :=
  let nprocs_avail := f.nprocs USE_LOGICAL_CORE
  let soft := f.cpu_soft
  let hard := pyOrNat f.cpu_hard nprocs_avail
  match cpuSpecValue f nprocsTok with
  | .error e => .error e
  | .ok res =>
    let np : Int := pyTrunc res
    if np > (nprocs_avail : Int) then .error .tooManyCores
    else
      match f.cpu_hard with
      | some h =>
        if np > (h : Int) then .error .hardLimitExceeded
        else .ok ⟨soft, hard, np⟩
      | none => .ok ⟨soft, hard, np⟩

/-! ## Memory resolution (lines 321–338 of `arch.py`) -/

def resolveMem (f : NodeFamily) : Except ResolveError MemAlloc :=
  let hard0 := pyOrRat f.mem_hard f.size_mem
  let soft := f.mem_soft.map (· * MEM_LIMIT)
  let hard := hard0.map (· * MEM_LIMIT)
  match soft with
  | some m => .ok ⟨soft, hard, m⟩
  | none =>
    match hard with
    | some m => .ok ⟨soft, hard, m⟩
    | none => .error .noMemoryLimit

/-! ## Node-id resolution (lines 340–363 of `arch.py`) -/

/-- The `try: value = int(nodeid) …` block (lines 342–349): parse
failure and the explicit range `raise` both surface as the same
`KeyError`: wrong definition of the node ID. -/
def nodeIdStep (f : NodeFamily) (nidTok : Option String) :
    Except ResolveError (Option Int) :=
  match nidTok with
  | none => .ok none
  | some t =>
    match pyParseInt t with
    | none => .error .invalidNodeId
    | some v =>
      if v > (f.nnodes : Int) then .error .invalidNodeId
      else .ok (some v)

def resolveNodeId (f : NodeFamily) (nidTok : Option String)
    (optNode : Option Int) : Except ResolveError (Option Int) :=
  match nodeIdStep f nidTok with
  | .error e => .error e
  | .ok nodeid =>
    match optNode with
    | some n =>
      match nodeid with
      | some v =>
        if v ≠ n then .error .conflictingNodeSelection else .ok (some n)
      | none => .ok (some n)
    | none => .ok nodeid

/-- Formatting of the host entry of `job_extra` (lines 360–363): raw queue name plus
the node id zero-padded to `len(str(len(family)))`. -/
def hostFor (f : NodeFamily) (nodeid : Option Int) : Option String :=
  nodeid.map (fun v =>
    f.queue_name ++ pyFormatZeroPad v (toString f.nnodes).length)

/-! ## Group resolution (lines 366–381 of `arch.py`) -/

def resolveGroup (f : NodeFamily) (optGroup : Option String) :
    Except ResolveError (Option (Option String)) :=
  match f.user_groups with
  | none => .ok none
  | some gs =>
    match optGroup with
    | some g =>
      if g ∈ gs then .ok (some optGroup) else .error .groupNotAuthorized
    | none =>
      match gs with
      | [] => .error .crashEmptyGroups
      -- The source selects `gs[0]` into a local variable, but then
      -- stores `opts.group` into the group entry of `job_extra` (line 381).
      | _ :: _ => .ok (some optGroup)

/-! ## Full per-queue resolver `_get_spec_by_queue` -/

def resolveWithFamily (f : NodeFamily) (queue : String)
    (np nid : Option String) (optNode : Option Int)
    (optGroup : Option String) : Except ResolveError SpecResult := do
  let cpu ← resolveCpu f np
  let mem ← resolveMem f
  let nodeid ← resolveNodeId f nid optNode
  let grp ← resolveGroup f optGroup
  .ok ⟨cpu, mem,
       { qname := queue, qbase := f.queue_name,
         host := hostFor f nodeid, group := grp }⟩

def getSpecByQueue (queues_info : List (String × String))
    (nodes_info : List (String × NodeFamily)) (optQueue : String)
    (optNode : Option Int) (optGroup : Option String) :
    Except ResolveError SpecResult :=
  match parseQueueSpec optQueue with
  | .error e => .error e
  | .ok (queue, np, nid) =>
    match lookupFamily queues_info nodes_info queue with
    | none => .error .unsupportedQueue
    | some f => resolveWithFamily f queue np nid optNode optGroup

/-- `_get_spec_by_queue` with the module-global `gtpar.node_family`
made explicit: the global is overwritten as soon as the catalog lookup
succeeds (line 275 of `arch.py`), even if a later step fails. -/
def getSpecByQueueSt (queues_info : List (String × String))
    (nodes_info : List (String × NodeFamily)) (optQueue : String)
    (optNode : Option Int) (optGroup : Option String)
    (st0 : Option NodeFamily) :
    Except ResolveError SpecResult × Option NodeFamily :=
  match parseQueueSpec optQueue with
  | .error e => (.error e, st0)
  | .ok (queue, np, nid) =>
    match lookupFamily queues_info nodes_info queue with
    | none => (.error .unsupportedQueue, st0)
    | some f => (resolveWithFamily f queue np nid optNode optGroup, some f)

/-! ## Walltime resolution (lines 165–194 of `arch.py`)

The generic wrapper `get_arch_spec` adds the walltime to `job_extra`
when the configuration requires one.  The per-queue default is read
from a substring-keyed mapping, keyed on the queue name with the raw
scheduler queue name removed. -/

/-- Distinct failure paths of the walltime block of `get_arch_spec`. -/
inductive WalltimeError
  /-- The missing-walltime error, `sys.exit(10)`: walltime needed, none
  given, and the configured policy is not a mapping. -/
  | missingWalltime
  /-- `TypeError`: no mapping key matched and there is no empty-string fallback,
  so `wtime` is still `None` at `re.fullmatch(..., wtime)`. -/
  | crashFormatNone
  /-- The wrong-walltime-format error, `sys.exit(10)`. -/
  | badFormat
deriving Repr, DecidableEq

/-- The mapping loop over `wtime_dat.items()` guarded by
`if key and key in qname` —
value of the first non-empty key occurring in `qname`, in mapping
iteration (insertion) order. -/
def firstWalltimeMatch (dat : List (String × String)) (qname : String) :
    Option String :=
  match dat with
  | [] => none
  | (k, v) :: rest =>
    if (k != "") && pyInStr k qname then some v
    else firstWalltimeMatch rest qname

/-- The full-match walltime format test (digits, colon, two digits,
colon, two digits). -/
def isWalltimeFormat (w : String) : Bool :=
  match pySplit ':' w with
  | [a, b, c] =>
    (a != "") && a.toList.all Char.isDigit &&
    (b.toList.length == 2) && b.toList.all Char.isDigit &&
    (c.toList.length == 2) && c.toList.all Char.isDigit
  | _ => false

/-- Walltime block of `get_arch_spec`.  `wtimeDat = some dat` models
`gtini.sub_info` on the walltime key being a mapping with insertion order `dat`;
`qname`/`qbase` are the qname/qbase entries of `job_extra` (always
set by the per-queue resolver).  Returns the value stored in
the walltime entry of `job_extra`. -/
def resolveWalltime (walltimeNeeded : Bool) (optWalltime : Option String)
    (wtimeDat : Option (List (String × String))) (qname qbase : String) :
    Except WalltimeError (Option String) :=
  if walltimeNeeded then
    let wtimeE : Except WalltimeError (Option String) :=
      match optWalltime with
      | none =>
        match wtimeDat with
        | some dat =>
          let qsuffix := pyRemoveAll qname qbase
          let w0 := firstWalltimeMatch dat qsuffix
          let w1 :=
            match w0 with
            | some v => some v
            | none => dat.lookup ""
          .ok w1
        | none => .error .missingWalltime
      | some w => .ok (some w)
    match wtimeE with
    | .error e => .error e
    | .ok none => .error .crashFormatNone
    | .ok (some w) =>
      if isWalltimeFormat w then .ok (some w) else .error .badFormat
  else .ok none

/-! ## Multi-file resource aggregation (`sub/__init__.py`, lines 692–720)

The per-file loop of `main` combines the `(dat_P, dat_M)` requirement
pairs returned by `check_gjf` into `(full_P, full_M)`, starting from
`(0, 0)`: parallel multi-jobs add the requirements, serial multi-jobs
keep the running maximum.  Memory values are the byte counts produced
by `hpc.convert_storage`. -/

/-- One iteration of the `full_P`/`full_M` update. -/
def aggregateStep (parallel : Bool) (acc job : Nat × Nat) : Nat × Nat :=
  if parallel then (acc.1 + job.1, acc.2 + job.2)
  else (if job.1 > acc.1 then job.1 else acc.1,
        if job.2 > acc.2 then job.2 else acc.2)

/-- The whole aggregation loop over the requirement pairs of the sub-jobs. -/
def aggregateJobs (parallel : Bool) (jobs : List (Nat × Nat)) : Nat × Nat :=
  jobs.foldl (aggregateStep parallel) (0, 0)

/-- `hpc.convert_storage` (external `hpcnodes` helper) on whole-gigabyte
inputs such as `"8GB"`: bytes with binary (1024-based) units. -/
def convertGB (n : Nat) : Nat := n * 1024 ^ 3

/-! ## Gaussian-input `%`-directive handling (`check_gjf`, lines 571–612)

`check_gjf` streams the input file; for a line whose stripped, lowered
form starts with a percent sign it runs the Link0 block at lines 572–597 and then
writes `line` (possibly emptied) to the output.  The processing of one
such line is modelled here; the returned effect carries the text
actually written plus the bookkeeping updates. -/

/-- Python value of the `file_chk`/`file_rwf` parameters: `None`,
`False`, or a path string. -/
inductive PyFileOpt
  | pynone
  | pyfalse
  | pystr (s : String)
deriving Repr, DecidableEq

/-- Distinct crash paths of the `%`-line handling. -/
inductive GjfError
  /-- `IndexError`: element 1 of the split on `=` of a line without `=`. -/
  | crashNoEquals
  /-- `ValueError`: `int(keyval)` on a non-integer `%nproc` value. -/
  | crashNprocValue
deriving Repr, DecidableEq

/-- Result of processing one `%` line. -/
structure Link0Effect where
  /-- Text written to the new input file (the empty string when the directive is
  swallowed because an override replaces it). -/
  written : String
  /-- Pairs appended to `ls_chks`. -/
  chks : List (Nat × String) := []
  /-- Names appended to `ls_rwfs`. -/
  rwfs : List String := []
  /-- New value assigned to `mem`, if any. -/
  memUpd : Option String := none
  /-- New value assigned to `nprocs`, if any. -/
  nprocUpd : Option Int := none
deriving Repr, DecidableEq

/-- Lines 572–597 of `sub/__init__.py` for one input line whose
stripped, lowered form starts with a percent sign. -/
def processLink0Line (line : String) (dat_P : Option Int)
    (dat_M : Option String) (file_chk file_rwf : PyFileOpt) :
    Except GjfError Link0Effect :=
  let line_lo := pyLower (pyStrip line)
  if line_lo = "%nosave" then .ok { written := line }
  else
    match (pySplit '=' line).get? 1 with
    | none => .error .crashNoEquals
    | some kv =>
      let keyval := pyStrip kv
      if pyStartsWith line_lo "%chk" then
        match file_chk with
        | .pynone => .ok { written := line, chks := [(0, keyval)] }
        | _ => .ok { written := "" }
      else if pyStartsWith line_lo "%oldchk" then
        .ok { written := line, chks := [(1, keyval)] }
      else if pyStartsWith line_lo "%rwf" then
        match file_rwf with
        | .pyfalse => .ok { written := "" }
        | _ => .ok { written := line, rwfs := [keyval] }
      else if pyStartsWith line_lo "%mem" then
        match dat_M with
        | none => .ok { written := line, memUpd := some keyval }
        | some _ => .ok { written := "" }
      else if pyStartsWith line_lo "%nproc" then
        match dat_P with
        | none =>
          match pyParseInt keyval with
          | some v => .ok { written := line, nprocUpd := some v }
          | none => .error .crashNprocValue
        | some _ => .ok { written := "" }
      else .ok { written := line }

end GxxTools

namespace GxxTools

/-! ## Concrete test families used by witnesses and counterexamples -/

/-- A family of four single-processor nodes, 8 physical / 16 logical
cores each, CPU soft cap 6, no CPU hard cap, 1000 bytes of memory. -/
def fam8x1 : NodeFamily :=
  { queue_name := "q", ncpu := 1, ncores := 8, nthreads := 2,
    cpu_soft := some 6, size_mem := some 1000, nnodes := 4 }

/-- Same capacity as `fam8x1` (8 physical / 16 logical cores) but with
two 4-core processors per node. -/
def fam4x2 : NodeFamily :=
  { queue_name := "q", ncpu := 2, ncores := 4, nthreads := 2,
    size_mem := some 1000, nnodes := 4 }

/-- A ten-node family (node-id width examples). -/
def fam10 : NodeFamily :=
  { queue_name := "q", ncpu := 1, ncores := 8,
    cpu_soft := some 4, size_mem := some 1000, nnodes := 10 }

/-- A family restricted to two user groups. -/
def famGrp : NodeFamily :=
  { queue_name := "q", ncpu := 1, ncores := 8,
    cpu_soft := some 4, size_mem := some 1000,
    user_groups := some ["grpA", "grpB"] }

/-- A family with a soft memory cap of 15 bytes. -/
def famMem : NodeFamily :=
  { queue_name := "q", ncpu := 1, ncores := 8,
    mem_soft := some 15, size_mem := some 100 }

end GxxTools

namespace GxxTools

/-! ## Theorems about the claims -/

/-- Claim C2: every cpu-spec token that is neither a recognized literal
nor an integer raises `InvalidCpuSpec`; but a token that parses as the
integer zero without being the literal `"0"` (such as `"00"`) crashes
with an `UnboundLocalError` instead, because neither branch of the
sign test assigns `res`.  This theorem evaluates the code at the
failing input `"00"` and contrasts it with a genuinely invalid token. -/
theorem cpu_spec_zero_token_crash :
    resolveCpu fam8x1 (some "00") = .error .crashUnboundRes ∧
    resolveCpu fam8x1 (some "abc") = .error .invalidCpuSpec ∧
    ResolveError.crashUnboundRes ≠ ResolveError.invalidCpuSpec := by
  decide

/-- Claim C4 (counterexample): with `nodeCount = 4`, the node-id token
`"4"` — outside the claimed range `[0, 4)` — is accepted (the code only
rejects ids strictly greater than `nodeCount`), and so is the negative
token `"-1"`. -/
theorem nodeid_range_counterexample :
    (getSpecByQueue [("q", "fam")] [("fam", fam8x1)] "q::4" none
        none).map (fun r => (r.cpu, r.extras)) =
      .ok (⟨some 6, 8, 6⟩, ⟨"q", "q", some "q4", none⟩) ∧
    (getSpecByQueue [("q", "fam")] [("fam", fam8x1)] "q::-1" none
        none).map (fun r => (r.cpu, r.extras)) =
      .ok (⟨some 6, 8, 6⟩, ⟨"q", "q", some "q-1", none⟩) := by
  decide

/-- Claim C5 (counterexample): with `nodeCount = 10` the width needed to
represent `nodeCount - 1 = 9` is 1, so the claim expects
`extras.host = "q3"`; the code pads to `len(str(10)) = 2` and produces
`"q03"`. -/
theorem host_zero_pad_counterexample :
    (getSpecByQueue [("q", "fam")] [("fam", fam10)] "q::3" none
        none).map (fun r => r.extras.host) = .ok (some "q03") ∧
    "q03" ≠ "q3" := by
  decide

/-- Claim C6: on a group-restricted family with no explicit group
selector, the code prints the advisory and picks `user_groups[0]` into
a local variable, but then stores `opts.group` — `None` — into
the group entry of `job_extra`, so the group of the allocation is *not* the first
authorized group.  With an explicit authorized selector the selector
itself is stored. -/
theorem group_autoselect_stores_none :
    (getSpecByQueue [("q", "g")] [("g", famGrp)] "q" none none).map
        (fun r => r.extras.group) = .ok (some none) ∧
    some (none : Option String) ≠ some (some "grpA") ∧
    (getSpecByQueue [("q", "g")] [("g", famGrp)] "q" none
        (some "grpB")).map (fun r => r.extras.group) =
      .ok (some (some "grpB")) := by
  decide

/-- Claim C7: the substring-keyed walltime lookup takes the first
non-empty key, in mapping order, occurring in the unqualified queue
suffix, and falls back to the `""` key; but when no key matches and no
`""` key exists, the code does not raise a clean missing-walltime
error — `wtime` is still `None` at `re.fullmatch`, which raises
`TypeError`.  Evaluations: a first-match hit, a `""`-fallback hit, and
the crashing input. -/
theorem walltime_lookup_crash_on_missing :
    resolveWalltime true none
        (some [("long", "120:00:00"), ("short", "12:00:00")])
        "qshort" "q" = .ok (some "12:00:00") ∧
    resolveWalltime true none
        (some [("long", "120:00:00"), ("", "6:00:00")])
        "qshort" "q" = .ok (some "6:00:00") ∧
    resolveWalltime true none (some [("long", "120:00:00")])
        "qshort" "q" = .error .crashFormatNone := by
  decide

/-- Claim C9 (counterexample): a directive line starting with `'%'` that
carries no `'='` (other than `%nosave`) is not passed through: the code
evaluates `line.split('=')[1]` before recognizing any key and crashes
with an `IndexError`, for every override combination sampled here. -/
theorem percent_line_counterexample :
    processLink0Line "%foo" none none .pynone .pynone =
      .error .crashNoEquals ∧
    processLink0Line "%mem" none none .pynone .pynone =
      .error .crashNoEquals ∧
    processLink0Line "%foo" (some 4) (some "8GB") (.pystr "a.chk")
        .pyfalse = .error .crashNoEquals ∧
    processLink0Line "%nosave" none none .pynone .pynone =
      .ok { written := "%nosave" } := by
  decide

/-- Claim C10 (counterexample): resolving a queue spec is not free of
process-wide effects: the call overwrites the module global
`gtpar.node_family` (here threaded explicitly), changing it from
`none` to the resolved family. -/
theorem resolution_writes_global_counterexample :
    (getSpecByQueueSt [("q", "fam")] [("fam", fam8x1)] "q" none none
        none).2 = some fam8x1 ∧
    some fam8x1 ≠ (none : Option NodeFamily) := by
  decide

/-! ### Helper lemmas (shared) -/

/-- Folding the parallel aggregation step adds componentwise sums. -/
theorem agg_par_fold (jobs : List (Nat × Nat)) (a b : Nat) :
    jobs.foldl (aggregateStep true) (a, b) =
      (a + (jobs.map Prod.fst).sum, b + (jobs.map Prod.snd).sum) := by
  induction jobs generalizing a b with
  | nil => simp
  | cons j rest ih =>
    have hstep : aggregateStep true (a, b) j = (a + j.1, b + j.2) := by
      simp [aggregateStep]
    simp only [List.foldl_cons, hstep, ih, List.map_cons, List.sum_cons,
      Prod.mk.injEq]
    omega

/-- The update with a strict comparison equals the binary maximum. -/
theorem ite_gt_eq_max (a b : Nat) : (if b > a then b else a) = max a b := by
  split
  · exact (Nat.max_eq_right (Nat.le_of_lt (by omega))).symm
  · exact (Nat.max_eq_left (by omega)).symm

/-- Folding the serial aggregation step takes componentwise maxima. -/
theorem agg_ser_fold (jobs : List (Nat × Nat)) (a b : Nat) :
    jobs.foldl (aggregateStep false) (a, b) =
      ((jobs.map Prod.fst).foldl max a, (jobs.map Prod.snd).foldl max b) := by
  induction jobs generalizing a b with
  | nil => simp
  | cons j rest ih =>
    have hstep : aggregateStep false (a, b) j = (max a j.1, max b j.2) := by
      simp [aggregateStep, ite_gt_eq_max]
    simp only [List.foldl_cons, hstep, ih, List.map_cons]

/-- Claim C8: the combined allocation of a multi-file submission sums
the per-job CPU counts and memory when the sub-jobs run in parallel and
takes componentwise maxima when they run serially; in particular jobs
of (4 cores, 8GB) and (6 cores, 4GB) combine to (6 cores, 8GB)
serially and (10 cores, 12GB) in parallel. -/
theorem aggregate_parallel_sum_serial_max :
    (∀ jobs : List (Nat × Nat),
        aggregateJobs true jobs =
          ((jobs.map Prod.fst).sum, (jobs.map Prod.snd).sum)) ∧
    (∀ jobs : List (Nat × Nat),
        aggregateJobs false jobs =
          ((jobs.map Prod.fst).foldl max 0,
           (jobs.map Prod.snd).foldl max 0)) ∧
    aggregateJobs false [(4, convertGB 8), (6, convertGB 4)] =
      (6, convertGB 8) ∧
    aggregateJobs true [(4, convertGB 8), (6, convertGB 4)] =
      (10, convertGB 12) := by
  refine ⟨?_, ?_, ?_, ?_⟩
  · intro jobs; simpa using agg_par_fold jobs 0 0
  · intro jobs; exact agg_ser_fold jobs 0 0
  · decide
  · decide

/-- Claim C10 (amended): the result of a resolution does not depend on
the prior value of the process-wide `gtpar.node_family` slot — the
resolver overwrites it before any use — although the slot itself is
written on every successful catalog lookup (see the counterexample). -/
theorem resolution_state_independence
    (queues_info : List (String × String))
    (nodes_info : List (String × NodeFamily)) (optQueue : String)
    (optNode : Option Int) (optGroup : Option String)
    (st1 st2 : Option NodeFamily) :
    (getSpecByQueueSt queues_info nodes_info optQueue optNode optGroup
        st1).1 =
      (getSpecByQueueSt queues_info nodes_info optQueue optNode optGroup
        st2).1 := by
  cases hp : parseQueueSpec optQueue with
  | error e => simp [getSpecByQueueSt, hp]
  | ok t =>
    obtain ⟨queue, np, nid⟩ := t
    cases hl : lookupFamily queues_info nodes_info queue <;>
      simp [getSpecByQueueSt, hp, hl]

/-- Claim C3 (amended): memory resolution scales the soft cap and the
(total-memory-defaulted) hard cap by the fixed factor 9/10 and takes
the soft value as base when present, else the hard value, failing with
the no-memory-limit error when neither exists; the result is the exact
product — no flooring to a whole byte takes place (see the
counterexample). -/
theorem mem_resolution_scaling (f : NodeFamily) :
    (∀ m : ℚ, f.mem_soft = some m →
        resolveMem f =
          .ok ⟨some (m * MEM_LIMIT),
               (pyOrRat f.mem_hard f.size_mem).map (· * MEM_LIMIT),
               m * MEM_LIMIT⟩) ∧
    (∀ h : ℚ, f.mem_soft = none → pyOrRat f.mem_hard f.size_mem = some h →
        resolveMem f = .ok ⟨none, some (h * MEM_LIMIT), h * MEM_LIMIT⟩) ∧
    (f.mem_soft = none → pyOrRat f.mem_hard f.size_mem = none →
        resolveMem f = .error .noMemoryLimit) := by
  refine ⟨?_, ?_, ?_⟩
  · intro m hm; simp [resolveMem, hm]
  · intro h hs hh; simp [resolveMem, hs, hh]
  · intro hs hh; simp [resolveMem, hs, hh]

/-- Witness for `mem_resolution_scaling` at the 15-byte-soft-cap
family. -/
theorem mem_resolution_scaling_witness :
    resolveMem famMem =
      .ok ⟨some ((15 : ℚ) * MEM_LIMIT),
           (pyOrRat famMem.mem_hard famMem.size_mem).map (· * MEM_LIMIT),
           (15 : ℚ) * MEM_LIMIT⟩ :=
  (mem_resolution_scaling famMem).1 15 rfl

/-- Claim C3 (counterexample): with a soft cap of 15 bytes the resolved
base is 27/2 bytes — strictly between 13 and 14 — so the code does not
floor the scaled value to a whole byte as the claim states. -/
theorem mem_no_rounding_counterexample :
    (resolveMem famMem).map MemAlloc.base = .ok ((27 : ℚ) / 2) ∧
    (13 : ℚ) < 27 / 2 ∧ ((27 : ℚ) / 2) < 14 := by
  refine ⟨?_, by norm_num, by norm_num⟩
  have h : famMem.mem_soft = some 15 := rfl
  simp [resolveMem, h, MEM_LIMIT, Except.map]
  norm_num

/-- Claim C4 (amended): a node-id token is accepted exactly when it
parses as an integer not exceeding `nodeCount`: ids strictly greater
than `nodeCount` and unparseable tokens fail with the (shared)
invalid-node-id error, while `nodeCount` itself and negative ids are
accepted — the checked range is not the claimed `[0, nodeCount)`. -/
theorem nodeid_range_check (f : NodeFamily) (t : String) :
    (∀ v : Int, pyParseInt t = some v → v ≤ (f.nnodes : Int) →
        resolveNodeId f (some t) none = .ok (some v)) ∧
    (∀ v : Int, pyParseInt t = some v → (f.nnodes : Int) < v →
        resolveNodeId f (some t) none = .error .invalidNodeId) ∧
    (pyParseInt t = none →
        resolveNodeId f (some t) none = .error .invalidNodeId) := by
  refine ⟨?_, ?_, ?_⟩
  · intro v hv hle
    have h1 : nodeIdStep f (some t) = .ok (some v) := by
      simp only [nodeIdStep, hv, if_neg (not_lt.mpr hle)]
    simp only [resolveNodeId, h1]
  · intro v hv hlt
    have h1 : nodeIdStep f (some t) = .error .invalidNodeId := by
      simp only [nodeIdStep, hv, if_pos hlt]
    simp only [resolveNodeId, h1]
  · intro hv
    have h1 : nodeIdStep f (some t) = .error .invalidNodeId := by
      simp only [nodeIdStep, hv]
    simp only [resolveNodeId, h1]

/-- Witness for `nodeid_range_check`: id 5 on a four-node family is
rejected. -/
theorem nodeid_range_check_witness :
    resolveNodeId fam8x1 (some "5") none = .error .invalidNodeId :=
  (nodeid_range_check fam8x1 "5").2.1 5 (by decide) (by decide)

/-- The padded string has the length of the pad width, or of the
original string if that is already longer. -/
theorem padZeros_length (s : String) (w : Nat) :
    (padZeros s w).length = max s.length w := by
  simp only [padZeros, String.length_append]
  have h : (String.mk (List.replicate (w - s.length) '0')).length =
      w - s.length := by
    rw [show (String.mk (List.replicate (w - s.length) '0')).length =
        (List.replicate (w - s.length) '0').length from rfl,
      List.length_replicate]
  omega

/-- Claim C5 (amended): whenever an effective node id `v ≥ 0` is
selected, `extras.host` is the raw scheduler queue name followed by the
id zero-padded to the number of decimal digits of `nodeCount` — not of
`nodeCount - 1` as claimed (see the counterexample for the
difference at `nodeCount = 10`). -/
theorem host_zero_pad_width (f : NodeFamily) (v : Int) (h : 0 ≤ v) :
    hostFor f (some v) =
      some (f.queue_name ++
        padZeros (toString v.toNat) (toString f.nnodes).length) ∧
    (padZeros (toString v.toNat) (toString f.nnodes).length).length =
      max (toString v.toNat).length (toString f.nnodes).length := by
  constructor
  · simp [hostFor, pyFormatZeroPad, not_lt.mpr h]
  · exact padZeros_length _ _

/-- Witness for `host_zero_pad_width` at id 3 on the ten-node
family. -/
theorem host_zero_pad_width_witness :
    hostFor fam10 (some 3) =
      some (fam10.queue_name ++
        padZeros (toString (3 : Int).toNat)
          (toString fam10.nnodes).length) ∧
    (padZeros (toString (3 : Int).toNat)
        (toString fam10.nnodes).length).length =
      max (toString (3 : Int).toNat).length
        (toString fam10.nnodes).length :=
  host_zero_pad_width fam10 3 (by decide)

/-- Claim C9 (amended): a directive line starting with a percent sign
that contains an equals sign and matches none of the recognized
resource keys is passed through to the output unmodified with no
bookkeeping effect, as is the literal `%nosave` line; a percent line
without an equals sign instead crashes (see the counterexample). -/
theorem percent_line_passthrough (line : String) (dat_P : Option Int)
    (dat_M : Option String) (file_chk file_rwf : PyFileOpt) (kv : String)
    (hkv : (pySplit '=' line).get? 1 = some kv)
    (hchk : pyStartsWith (pyLower (pyStrip line)) "%chk" = false)
    (hold : pyStartsWith (pyLower (pyStrip line)) "%oldchk" = false)
    (hrwf : pyStartsWith (pyLower (pyStrip line)) "%rwf" = false)
    (hmem : pyStartsWith (pyLower (pyStrip line)) "%mem" = false)
    (hnpr : pyStartsWith (pyLower (pyStrip line)) "%nproc" = false) :
    processLink0Line line dat_P dat_M file_chk file_rwf =
      .ok { written := line } := by
  unfold processLink0Line
  rw [List.get?_eq_getElem?] at hkv
  by_cases hns : pyLower (pyStrip line) = "%nosave"
  · simp [hns]
  · simp [hns, hkv, hchk, hold, hrwf, hmem, hnpr]

/-- Witness for `percent_line_passthrough` on an unrecognized
directive. -/
theorem percent_line_passthrough_witness :
    processLink0Line "%subst=l504 /home/u" none none .pynone .pynone =
      .ok { written := "%subst=l504 /home/u" } :=
  percent_line_passthrough "%subst=l504 /home/u" none none .pynone
    .pynone "l504 /home/u" (by decide) (by decide) (by decide)
    (by decide) (by decide) (by decide)


/-- Python truncation is the identity on integer values. -/
theorem pyTrunc_intCast (z : ℤ) : pyTrunc ((z : ℚ)) = z := by
  unfold pyTrunc
  split
  · rw [← Int.cast_neg, Int.floor_intCast, neg_neg]
  · exact Int.floor_intCast z

/-- When the token dispatch produces the integer value `z`, within
capacity, on a family without a CPU hard cap, the resolver returns the
allocation with base `z`, soft copied verbatim and hard defaulted to
the available processing units. -/
theorem resolveCpu_of_value (f : NodeFamily) (tok : Option String)
    (z : ℤ) (hval : cpuSpecValue f tok = .ok ((z : ℚ)))
    (hz : z ≤ (f.nprocs USE_LOGICAL_CORE : ℤ))
    (hh : f.cpu_hard = none) :
    resolveCpu f tok =
      .ok ⟨f.cpu_soft, f.nprocs USE_LOGICAL_CORE, z⟩ := by
  simp only [resolveCpu, hval, pyTrunc_intCast, hh, pyOrNat]
  rw [if_neg (not_lt.mpr hz)]

/-- Claim C1 (amended): on a family whose nodes hold a single 8-core
processor (8 physical / 16 logical cores, virtual scaling disabled so
the scale ratio is 1) and which sets no CPU hard cap, the cpu-spec
tokens resolve to: absent → the soft cap when present (and within
capacity) else the defaulted hard cap 8; H → 4; S → 1; 0 → 8; 4 → 4;
-1 → 8.  The half and negative conventions read the per-processor core
count, so the claimed values require single-processor nodes (see the
counterexample). -/
theorem cpu_spec_token_values (f : NodeFamily) (h1 : f.ncpu = 1)
    (h2 : f.ncores = 8) (h3 : f.nthreads = 2) (hh : f.cpu_hard = none) :
    (∀ s : Nat, f.cpu_soft = some s → s ≤ 8 →
        resolveCpu f none = .ok ⟨some s, 8, (s : Int)⟩) ∧
    (f.cpu_soft = none → resolveCpu f none = .ok ⟨none, 8, 8⟩) ∧
    resolveCpu f (some "H") = .ok ⟨f.cpu_soft, 8, 4⟩ ∧
    resolveCpu f (some "S") = .ok ⟨f.cpu_soft, 8, 1⟩ ∧
    resolveCpu f (some "0") = .ok ⟨f.cpu_soft, 8, 8⟩ ∧
    resolveCpu f (some "4") = .ok ⟨f.cpu_soft, 8, 4⟩ ∧
    resolveCpu f (some "-1") = .ok ⟨f.cpu_soft, 8, 8⟩ := by
  have ha : f.nprocs USE_LOGICAL_CORE = 8 := by
    simp [NodeFamily.nprocs, USE_LOGICAL_CORE, h1, h2]
  have hb : f.nprocs false = 8 := by
    simp [NodeFamily.nprocs, h1, h2]
  refine ⟨?_, ?_, ?_, ?_, ?_, ?_, ?_⟩
  · intro n hs hle
    have hv : cpuSpecValue f none = .ok (((n : ℤ) : ℚ)) := by
      simp [cpuSpecValue, hs]
    have h := resolveCpu_of_value f none (n : ℤ) hv
      (by rw [ha]; exact_mod_cast hle) hh
    rw [h, ha, hs]
  · intro hs
    have hv : cpuSpecValue f none = .ok (((8 : ℤ) : ℚ)) := by
      simp [cpuSpecValue, hs, hh, pyOrNat, ha]
    have h := resolveCpu_of_value f none 8 hv (by rw [ha]; omega) hh
    rw [h, ha, hs]
  · have hv : cpuSpecValue f (some "H") = .ok (((4 : ℤ) : ℚ)) := by
      simp [cpuSpecValue, h2, ha, hb]
      norm_num [pyTrunc]
    have h := resolveCpu_of_value f (some "H") 4 hv (by rw [ha]; omega) hh
    rw [h, ha]
  · have hv : cpuSpecValue f (some "S") = .ok (((1 : ℤ) : ℚ)) := by
      simp [cpuSpecValue, ha, hb]
    have h := resolveCpu_of_value f (some "S") 1 hv (by rw [ha]; omega) hh
    rw [h, ha]
  · have hv : cpuSpecValue f (some "0") = .ok (((8 : ℤ) : ℚ)) := by
      simp [cpuSpecValue, ha]
    have h := resolveCpu_of_value f (some "0") 8 hv (by rw [ha]; omega) hh
    rw [h, ha]
  · have hp : pyParseInt "4" = some 4 := by decide
    have hv : cpuSpecValue f (some "4") = .ok (((4 : ℤ) : ℚ)) := by
      simp [cpuSpecValue, hp]
    have h := resolveCpu_of_value f (some "4") 4 hv (by rw [ha]; omega) hh
    rw [h, ha]
  · have hp : pyParseInt "-1" = some (-1) := by decide
    have hv : cpuSpecValue f (some "-1") = .ok (((8 : ℤ) : ℚ)) := by
      simp [cpuSpecValue, hp, h2, ha, hb]
    have h := resolveCpu_of_value f (some "-1") 8 hv (by rw [ha]; omega) hh
    rw [h, ha]

/-- Witness for `cpu_spec_token_values`: the empty token on `fam8x1`
(soft cap 6) resolves to base 6. -/
theorem cpu_spec_token_values_witness :
    resolveCpu fam8x1 none = .ok ⟨some 6, 8, (6 : Int)⟩ :=
  (cpu_spec_token_values fam8x1 rfl rfl rfl rfl).1 6 rfl (by decide)

/-- Claim C1 (counterexample): a family with 8 physical / 16 logical
cores per node arranged as two 4-core processors — allowed by the
claim, which quantifies over every family of that capacity — resolves
H to 2 (the claim demands 4) and -1 to 4 (the claim demands 8): both
conventions read the per-processor core count, not half resp. all of
the node. -/
theorem cpu_spec_token_values_counterexample :
    fam4x2.nprocs false = 8 ∧ fam4x2.nprocs true = 16 ∧
    (resolveCpu fam4x2 (some "H")).map CpuAlloc.base = .ok 2 ∧
    (resolveCpu fam4x2 (some "-1")).map CpuAlloc.base = .ok 4 ∧
    (2 : ℤ) ≠ 4 ∧ (4 : ℤ) ≠ 8 := by
  refine ⟨by decide, by decide, ?_, ?_, by decide, by decide⟩
  · have hv : cpuSpecValue fam4x2 (some "H") = .ok (((2 : ℤ) : ℚ)) := by
      simp [cpuSpecValue, fam4x2, NodeFamily.nprocs, USE_LOGICAL_CORE]
      norm_num [pyTrunc]
    have h := resolveCpu_of_value fam4x2 (some "H") 2 hv (by decide) rfl
    rw [h]
    rfl
  · have hp : pyParseInt "-1" = some (-1) := by decide
    have hv : cpuSpecValue fam4x2 (some "-1") = .ok (((4 : ℤ) : ℚ)) := by
      simp [cpuSpecValue, hp, fam4x2, NodeFamily.nprocs, USE_LOGICAL_CORE]
    have h := resolveCpu_of_value fam4x2 (some "-1") 4 hv (by decide) rfl
    rw [h]
    rfl

end GxxTools
